import Mathlib

/-!
Verification of `convert_csv.py` (conversion of weather-station CSV telemetry
at Zeppelin to a NetCDF dataset).

The Python function `convert_csv_to_netcdf` is shallowly embedded below.
Numeric cells are rationals, with `none` standing for a missing (NaN) value.
The pandas / numpy / xarray library calls are modelled by their documented
semantics at the fixed call sites the script uses:

* `pd.read_csv(file, header=None, names=<11 names>)` assigns the 11 names
  positionally.  When a row has fewer fields than names, the trailing names
  become missing (NaN) cells; when a row has more fields than names, the
  leading extra fields become the index and are dropped.  No error is raised
  for a uniform-width file whose width differs from 11.
* `values.astype('int32')` converts each float to a 32-bit integer with C
  semantics: truncation toward zero in range; NaN and out-of-range values are
  undefined behaviour and produce INT32_MIN on the usual platforms.
* `np.nanmin` / `np.nanmax` reduce over the non-missing entries and yield NaN
  (here `none`) when every entry is missing; they warn but do not raise.
* Python `dict` assignment `d[k] = v` overwrites an existing binding in place
  and otherwise appends; `d.get(k, {})` yields the default when `k` is absent,
  and iterating the `{}` default yields nothing.  `{}[0]` raises `KeyError`
  and `[][0]` raises `IndexError`.

Run-time environment values used by the provenance string (current time,
login, script file name, today's date) are passed in explicitly as an `Env`.
-/

namespace ConvertCsv

/-- A numeric cell after pandas' numeric coercion; `none` models NaN. -/
abbrev Cell := Option ℚ

/-- Value of an attribute: a string or a (possibly missing / NaN) number. -/
inductive AttrValue
  | str : String → AttrValue
  | num : Option ℚ → AttrValue
deriving DecidableEq, Repr

/-- Python truthiness of an attribute value, as tested by `if values:` on
line 99 of the source.  The empty string and the number 0 are falsy; note
that a NaN float is truthy in Python. -/
def truthy : AttrValue → Bool
  | .str s => !s.isEmpty
  | .num none => true
  | .num (some q) => q != 0

/-- An attribute dictionary, as an insertion-ordered association list. -/
abbrev AttrList := List (String × AttrValue)

/-- Python dict assignment `d[k] = v`: overwrite an existing binding in
place, otherwise append at the end. -/
def setAttr : AttrList → String → AttrValue → AttrList
  | [], k, v => [(k, v)]
  | (k', v') :: rest, k, v =>
      if k' = k then (k, v) :: rest else (k', v') :: setAttr rest k v

/-- Python dict lookup. -/
def getAttr (l : AttrList) (k : String) : Option AttrValue :=
  (l.find? (fun p => p.1 == k)).map (fun p => p.2)

/-- Row alignment performed by `pd.read_csv(..., header=None, names=ns)` with
`ns.length = 11` (source lines 24-32), for a file of uniform row width: a row
with fewer than 11 fields leaves the trailing names filled with NaN, a row
with more than 11 fields has its leading extra fields taken as the index and
dropped.  In particular no error is raised for a non-11-column file. -/
def alignRow (row : List Cell) : List Cell :=
  if row.length ≤ 11 then row ++ List.replicate (11 - row.length) none
  else row.drop (row.length - 11)

/-- Column `i` (0-based, in the order of the `names` list) of the parsed
frame. -/
def col (rows : List (List Cell)) (i : Nat) : List Cell :=
  rows.map (fun r => (alignRow r).getD i none)

/-- Truncation toward zero, the C float-to-int conversion used by
`values.astype('int32')`. -/
def truncRat (q : ℚ) : Int :=
  if q < 0 then -(Rat.floor (-q)) else Rat.floor q

/-- The int32 value that NaN and out-of-range doubles convert to on the
usual (x86 SSE) platforms; the conversion is undefined behaviour in C. -/
def int32Min : Int := -(2 ^ 31)

/-- The int32 range. -/
abbrev inInt32 (v : Int) : Prop := -(2 ^ 31) ≤ v ∧ v < 2 ^ 31

/-- `values.astype('int32')` on one cell (source lines 44 and 46): a finite
value is truncated toward zero (reduced modulo nothing — out-of-range values
and NaN are undefined behaviour, modelled as INT32_MIN, their value on the
usual platforms).  Note a NaN cell does not stay missing: it becomes an
ordinary integer. -/
def castInt32 : Cell → Int
  | none => int32Min
  | some q =>
      let t := truncRat q
      if -(2 ^ 31) ≤ t ∧ t < 2 ^ 31 then t else int32Min

/-- `np.nanmin`: minimum over the non-missing entries, NaN when there are
none.  It warns on an all-NaN input but does not raise. -/
def nanmin (xs : List Cell) : Cell :=
  match xs.filterMap id with
  | [] => none
  | a :: rest => some (rest.foldl min a)

/-- `np.nanmax`: maximum over the non-missing entries, NaN when there are
none. -/
def nanmax (xs : List Cell) : Cell :=
  match xs.filterMap id with
  | [] => none
  | a :: rest => some (rest.foldl max a)

/-- The stored payload of one dataset variable: a float column or an int32
column. -/
inductive VarCol
  | floats : List Cell → VarCol
  | ints : List Int → VarCol
deriving DecidableEq, Repr

/-- Number of samples in a column. -/
def VarCol.length : VarCol → Nat
  | .floats xs => xs.length
  | .ints xs => xs.length

/-- The column viewed as (possibly missing) numbers; an int32 column holds
no missing entries. -/
def VarCol.cells : VarCol → List Cell
  | .floats xs => xs
  | .ints xs => xs.map (fun i => some (i : ℚ))

/-- One named data variable with its attribute dictionary. -/
structure Variable where
  name : String
  col : VarCol
  attrs : AttrList
deriving DecidableEq, Repr

/-- The in-memory xarray Dataset: time coordinate, data variables, global
attributes. -/
structure Dataset where
  time : List Cell
  time_attrs : AttrList
  data_vars : List Variable
  attrs : AttrList
deriving DecidableEq, Repr

/-- `ds[vname].attrs[key] = v` — the `"time"` name addresses the coordinate. -/
def setVarAttr (ds : Dataset) (vname key : String) (v : AttrValue) : Dataset :=
  if vname == "time" then
    { ds with time_attrs := setAttr ds.time_attrs key v }
  else
    { ds with data_vars := ds.data_vars.map (fun x =>
        if x.name == vname then { x with attrs := setAttr x.attrs key v } else x) }

/-- `ds.attrs[key] = v`. -/
def setDsAttr (ds : Dataset) (key : String) (v : AttrValue) : Dataset :=
  { ds with attrs := setAttr ds.attrs key v }

/-- The payload of data variable `vname`, when present. -/
def varColOf (ds : Dataset) (vname : String) : Option VarCol :=
  (ds.data_vars.find? (fun x => x.name == vname)).map (fun x => x.col)

/-- `ds[vname].attrs.get(key)` — the `"time"` name addresses the coordinate. -/
def varAttr (ds : Dataset) (vname key : String) : Option AttrValue :=
  if vname == "time" then getAttr ds.time_attrs key
  else (ds.data_vars.find? (fun x => x.name == vname)).bind (fun x => getAttr x.attrs key)

/-- DatasetBuilder, source lines 36-52: time coordinate from the `timestamp`
column as-is; 10 data variables from the remaining columns in order, with
`true_wind_direction` and `air_humidity` cast to int32. -/
def buildDataset (rows : List (List Cell)) : Dataset where
  time := col rows 0
  time_attrs := []
  data_vars := [
    ⟨"latitude", .floats (col rows 1), []⟩,
    ⟨"longitude", .floats (col rows 2), []⟩,
    ⟨"true_wind_speed", .floats (col rows 3), []⟩,
    ⟨"true_wind_direction", .ints ((col rows 4).map castInt32), []⟩,
    ⟨"air_temperature", .floats (col rows 5), []⟩,
    ⟨"air_humidity", .ints ((col rows 6).map castInt32), []⟩,
    ⟨"dew_point", .floats (col rows 7), []⟩,
    ⟨"immediate_air_pressure", .floats (col rows 8), []⟩,
    ⟨"average_air_pressure_for_last_minute", .floats (col rows 9), []⟩,
    ⟨"sea_level_air_pressure", .floats (col rows 10), []⟩]
  attrs := []

/-- Source lines 55-64: the fixed standard-name table. -/
def addStandardNames (ds : Dataset) : Dataset :=
  let ds := setVarAttr ds "latitude" "standard_name" (.str "latitude")
  let ds := setVarAttr ds "longitude" "standard_name" (.str "longitude")
  let ds := setVarAttr ds "true_wind_speed" "standard_name" (.str "wind_speed")
  let ds := setVarAttr ds "true_wind_direction" "standard_name" (.str "wind_from_direction")
  let ds := setVarAttr ds "air_temperature" "standard_name" (.str "air_temperature")
  let ds := setVarAttr ds "air_humidity" "standard_name" (.str "humidity_mixing_ratio")
  let ds := setVarAttr ds "dew_point" "standard_name" (.str "dew_point_temperature")
  let ds := setVarAttr ds "immediate_air_pressure" "standard_name" (.str "air_pressure")
  let ds := setVarAttr ds "average_air_pressure_for_last_minute" "standard_name" (.str "tendency_of_air_pressure")
  setVarAttr ds "sea_level_air_pressure" "standard_name" (.str "air_pressure_at_mean_sea_level")

/-- Source lines 67-77: the fixed unit table, including the time coordinate. -/
def addUnits (ds : Dataset) : Dataset :=
  let ds := setVarAttr ds "latitude" "units" (.str "degree_north")
  let ds := setVarAttr ds "longitude" "units" (.str "degree_east")
  let ds := setVarAttr ds "true_wind_speed" "units" (.str "m s-1")
  let ds := setVarAttr ds "true_wind_direction" "units" (.str "degrees")
  let ds := setVarAttr ds "air_temperature" "units" (.str "degree_Celsius")
  let ds := setVarAttr ds "air_humidity" "units" (.str "percent")
  let ds := setVarAttr ds "dew_point" "units" (.str "degree_Celsius")
  let ds := setVarAttr ds "immediate_air_pressure" "units" (.str "hPa")
  let ds := setVarAttr ds "average_air_pressure_for_last_minute" "units" (.str "hPa s-1")
  let ds := setVarAttr ds "sea_level_air_pressure" "units" (.str "hPa")
  setVarAttr ds "time" "units" (.str "seconds since 1970-01-01 00:00:00")

/-- Source lines 80-82: `long_name` of each data variable is its own name. -/
def addLongNames (ds : Dataset) : Dataset :=
  { ds with data_vars := ds.data_vars.map (fun x =>
      { x with attrs := setAttr x.attrs "long_name" (.str x.name) }) }

/-- `os.path.basename`. -/
def basename (p : String) : String :=
  String.mk ((p.data.reverse.takeWhile (fun c => c ≠ '/')).reverse)

/-- The stem of `os.path.splitext`: everything before the last dot, when one
is present.  (The Python special case for a leading-dot file name is not
modelled; no claim exercises it.) -/
def splitextStem (s : String) : String :=
  let r := s.data.reverse
  if r.contains '.' then String.mk (((r.dropWhile (fun c => c ≠ '.')).drop 1).reverse)
  else s

/-- Source line 85: the title is the input file's base name without its
extension. -/
def addTitle (dataFile : String) (ds : Dataset) : Dataset :=
  setDsAttr ds "title" (.str (splitextStem (basename dataFile)))

/-- The run-time environment values the script reads implicitly. -/
structure Env where
  now : String
  user : String
  script : String
  today : String
deriving DecidableEq, Repr

/-- ExtentComputer, source lines 88-94: `np.nanmin` / `np.nanmax` extents of
latitude, longitude and time, then the creation date. -/
def addCoverage (env : Env) (ds : Dataset) : Dataset :=
  let lat := (varColOf ds "latitude").getD (.floats [])
  let lon := (varColOf ds "longitude").getD (.floats [])
  let ds := setDsAttr ds "geospatial_lat_min" (.num (nanmin lat.cells))
  let ds := setDsAttr ds "geospatial_lat_max" (.num (nanmax lat.cells))
  let ds := setDsAttr ds "geospatial_lon_min" (.num (nanmin lon.cells))
  let ds := setDsAttr ds "geospatial_lon_max" (.num (nanmax lon.cells))
  let ds := setDsAttr ds "time_coverage_start" (.num (nanmin ds.time))
  let ds := setDsAttr ds "time_coverage_end" (.num (nanmax ds.time))
  setDsAttr ds "date_created" (.str env.today)

/-- ConfiguredAttributeMerger, source lines 98-100: each truthy configured
entry is written over the dataset attributes; falsy entries are skipped. -/
def mergeGlobalAttrs (attrs : AttrList) (ga : AttrList) : AttrList :=
  ga.foldl (fun a kv => if truthy kv.2 then setAttr a kv.1 kv.2 else a) attrs

/-- Source line 108: the provenance string. -/
def historyStr (env : Env) (dataFile ncFile : String) : String :=
  env.now ++ " " ++ env.user ++ " " ++ env.script ++ " -input " ++
    basename dataFile ++ " -output " ++ ncFile

/-- Source line 103: the output artifact's file name. -/
def ncName (dataFile : String) : String :=
  splitextStem (basename dataFile) ++ ".nc"

/-- The dataset right after the ExtentComputer stage (source lines 36-94),
before the configured global attributes are merged. -/
def annotated (env : Env) (dataFile : String) (rows : List (List Cell)) : Dataset :=
  addCoverage env (addTitle dataFile (addLongNames (addUnits (addStandardNames (buildDataset rows)))))

/-- The dataset after the configured-attribute merge (source lines 96-100). -/
def annotatedMerged (env : Env) (ga : AttrList) (dataFile : String)
    (rows : List (List Cell)) : Dataset :=
  let ds := annotated env dataFile rows
  { ds with attrs := mergeGlobalAttrs ds.attrs ga }

/-- The finished per-file dataset as handed to the writer: the `history`
attribute (source line 108) is set after the configured-attribute merge. -/
def processFile (env : Env) (ga : AttrList) (dataFile : String)
    (rows : List (List Cell)) : Dataset :=
  setDsAttr (annotatedMerged env ga dataFile rows) "history"
    (.str (historyStr env dataFile (ncName dataFile)))

/-- The configuration mapping.  A missing key models the key being absent
from the YAML file; an input file is carried together with its parsed cell
rows, standing for the file content `pd.read_csv` would read. -/
structure Config where
  input_path : Option (List (String × List (List Cell)))
  output_path : Option (List String)
  global_attributes : Option AttrList

/-- The Python exceptions the script can raise itself: `KeyError` from
`{}[0]` when `output_path` is absent, `IndexError` from `[][0]` when it is
an empty list. -/
inductive PyError
  | keyError
  | indexError
deriving DecidableEq, Repr

/-- `convert_csv_to_netcdf` (source lines 9-116): iterate the configured
input files (an absent `input_path` defaults to `{}`, which iterates as
empty); for each file build, annotate and merge, then look up `output_path`
(line 105 — this is where a missing key raises), set `history`, and write
the artifact.  The writer itself is external; its inputs (path and dataset)
are returned. -/
def convert (env : Env) (cfg : Config) : Except PyError (List (String × Dataset)) :=
  let ga := cfg.global_attributes.getD []
  (cfg.input_path.getD []).foldlM (fun acc f =>
    let pre := annotatedMerged env ga f.1 f.2
    match cfg.output_path with
    | none => Except.error PyError.keyError
    | some [] => Except.error PyError.indexError
    | some (op :: _) =>
        let ds := setDsAttr pre "history"
          (AttrValue.str (historyStr env f.1 (ncName f.1)))
        Except.ok (acc ++ [(op ++ "/" ++ ncName f.1, ds)])) []

/-- Number of artifacts a run hands to the writer. -/
def numOutputs (e : Except PyError (List (String × Dataset))) : Nat :=
  match e with
  | .ok l => l.length
  | .error _ => 0

/-- The value of the 10 data variables after the whole annotation pipeline
(standard names, units, long names), spelled out.  That this is what the
source's `setVarAttr`-style mutations produce is proved by the stage lemmas
below (`addStandardNames_build` through `addLongNames_eq`). -/
def annotatedVars (rows : List (List Cell)) : List Variable := [
  ⟨"latitude", .floats (col rows 1),
    [("standard_name", .str "latitude"), ("units", .str "degree_north"),
     ("long_name", .str "latitude")]⟩,
  ⟨"longitude", .floats (col rows 2),
    [("standard_name", .str "longitude"), ("units", .str "degree_east"),
     ("long_name", .str "longitude")]⟩,
  ⟨"true_wind_speed", .floats (col rows 3),
    [("standard_name", .str "wind_speed"), ("units", .str "m s-1"),
     ("long_name", .str "true_wind_speed")]⟩,
  ⟨"true_wind_direction", .ints ((col rows 4).map castInt32),
    [("standard_name", .str "wind_from_direction"), ("units", .str "degrees"),
     ("long_name", .str "true_wind_direction")]⟩,
  ⟨"air_temperature", .floats (col rows 5),
    [("standard_name", .str "air_temperature"), ("units", .str "degree_Celsius"),
     ("long_name", .str "air_temperature")]⟩,
  ⟨"air_humidity", .ints ((col rows 6).map castInt32),
    [("standard_name", .str "humidity_mixing_ratio"), ("units", .str "percent"),
     ("long_name", .str "air_humidity")]⟩,
  ⟨"dew_point", .floats (col rows 7),
    [("standard_name", .str "dew_point_temperature"), ("units", .str "degree_Celsius"),
     ("long_name", .str "dew_point")]⟩,
  ⟨"immediate_air_pressure", .floats (col rows 8),
    [("standard_name", .str "air_pressure"), ("units", .str "hPa"),
     ("long_name", .str "immediate_air_pressure")]⟩,
  ⟨"average_air_pressure_for_last_minute", .floats (col rows 9),
    [("standard_name", .str "tendency_of_air_pressure"), ("units", .str "hPa s-1"),
     ("long_name", .str "average_air_pressure_for_last_minute")]⟩,
  ⟨"sea_level_air_pressure", .floats (col rows 10),
    [("standard_name", .str "air_pressure_at_mean_sea_level"), ("units", .str "hPa"),
     ("long_name", .str "sea_level_air_pressure")]⟩]

/-! ### Dictionary lemmas -/

lemma getAttr_setAttr_self (l : AttrList) (k : String) (v : AttrValue) :
    getAttr (setAttr l k v) k = some v := by
  induction l with
  | nil => simp [setAttr, getAttr]
  | cons p t ih =>
      obtain ⟨k', v'⟩ := p
      by_cases h : k' = k
      · simp [setAttr, getAttr, h]
      · simpa [setAttr, getAttr, h] using ih

lemma getAttr_setAttr_ne (l : AttrList) {k' k : String} (h : k' ≠ k) (v : AttrValue) :
    getAttr (setAttr l k' v) k = getAttr l k := by
  induction l with
  | nil => simp [setAttr, getAttr, h]
  | cons p t ih =>
      obtain ⟨k₁, v₁⟩ := p
      by_cases h₁ : k₁ = k'
      · simp [setAttr, getAttr, h₁, h]
      · by_cases h₂ : k₁ = k
        · simp [setAttr, getAttr, h₁, h₂, h.symm]
        · simpa [setAttr, getAttr, h₁, h₂] using ih

lemma getAttr_merge_of_falsy (ga : AttrList) (l : AttrList) (k : String)
    (h : ∀ v, (k, v) ∈ ga → truthy v = false) :
    getAttr (mergeGlobalAttrs l ga) k = getAttr l k := by
  induction ga generalizing l with
  | nil => rfl
  | cons p t ih =>
      obtain ⟨k₁, v₁⟩ := p
      have step : mergeGlobalAttrs l ((k₁, v₁) :: t)
          = mergeGlobalAttrs (if truthy v₁ then setAttr l k₁ v₁ else l) t := by
        simp [mergeGlobalAttrs]
      rw [step, ih _ fun v hv => h v (List.mem_cons_of_mem _ hv)]
      by_cases ht : truthy v₁
      · have hk : k₁ ≠ k := by
          intro hk
          subst hk
          exact absurd (h v₁ (List.mem_cons_self _ _)) (by simp [ht])
        simp [ht, getAttr_setAttr_ne _ hk]
      · simp [ht]

lemma getAttr_merge_of_mem (ga : AttrList) (l : AttrList) (k : String) (v : AttrValue)
    (hnd : (ga.map Prod.fst).Nodup) (hmem : (k, v) ∈ ga) (ht : truthy v = true) :
    getAttr (mergeGlobalAttrs l ga) k = some v := by
  induction ga generalizing l with
  | nil => cases hmem
  | cons p t ih =>
      obtain ⟨k₁, v₁⟩ := p
      have step : mergeGlobalAttrs l ((k₁, v₁) :: t)
          = mergeGlobalAttrs (if truthy v₁ then setAttr l k₁ v₁ else l) t := by
        simp [mergeGlobalAttrs]
      rw [List.map_cons, List.nodup_cons] at hnd
      rcases List.mem_cons.mp hmem with hhd | htl
      · obtain ⟨hk, hv⟩ := Prod.mk.injEq .. ▸ hhd
        subst hk
        subst hv
        have habs : ∀ w, (k, w) ∈ t → truthy w = false := by
          intro w hw
          exact absurd (List.mem_map_of_mem Prod.fst hw) hnd.1
        rw [step, getAttr_merge_of_falsy _ _ _ habs, if_pos ht,
          getAttr_setAttr_self]
      · rw [step]
        exact ih _ hnd.2 htl

/-! ### Reduction lemmas for `nanmin` / `nanmax` -/

lemma foldl_min_le_self (l : List ℚ) (a : ℚ) : l.foldl min a ≤ a := by
  induction l generalizing a with
  | nil => exact le_refl a
  | cons b t ih => exact le_trans (ih (min a b)) (min_le_left a b)

lemma self_le_foldl_max (l : List ℚ) (a : ℚ) : a ≤ l.foldl max a := by
  induction l generalizing a with
  | nil => exact le_refl a
  | cons b t ih => exact le_trans (le_max_left a b) (ih (max a b))

lemma nanmin_eq_of_cons {xs : List Cell} {a : ℚ} {rest : List ℚ}
    (h : xs.filterMap id = a :: rest) : nanmin xs = some (rest.foldl min a) := by
  unfold nanmin
  rw [h]

lemma nanmax_eq_of_cons {xs : List Cell} {a : ℚ} {rest : List ℚ}
    (h : xs.filterMap id = a :: rest) : nanmax xs = some (rest.foldl max a) := by
  unfold nanmax
  rw [h]

lemma nanmin_le_nanmax {xs : List Cell} (h : xs.filterMap id ≠ []) :
    ∃ lo hi, nanmin xs = some lo ∧ nanmax xs = some hi ∧ lo ≤ hi := by
  obtain ⟨a, rest, hc⟩ := List.exists_cons_of_ne_nil h
  exact ⟨rest.foldl min a, rest.foldl max a, nanmin_eq_of_cons hc, nanmax_eq_of_cons hc,
    le_trans (foldl_min_le_self rest a) (self_le_foldl_max rest a)⟩

lemma nanmin_all_none {xs : List Cell} (h : ∀ c ∈ xs, c = none) : nanmin xs = none := by
  have h0 : List.filterMap id xs = [] := List.filterMap_eq_nil_iff.mpr h
  unfold nanmin
  rw [h0]

lemma nanmax_all_none {xs : List Cell} (h : ∀ c ∈ xs, c = none) : nanmax xs = none := by
  have h0 : List.filterMap id xs = [] := List.filterMap_eq_nil_iff.mpr h
  unfold nanmax
  rw [h0]

/-! ### Evaluating the annotation pipeline, one stage at a time -/

lemma addStandardNames_build (rows : List (List Cell)) :
    addStandardNames (buildDataset rows) =
      { time := col rows 0, time_attrs := [], data_vars := [
          ⟨"latitude", .floats (col rows 1),
            [("standard_name", .str "latitude")]⟩,
          ⟨"longitude", .floats (col rows 2),
            [("standard_name", .str "longitude")]⟩,
          ⟨"true_wind_speed", .floats (col rows 3),
            [("standard_name", .str "wind_speed")]⟩,
          ⟨"true_wind_direction", .ints ((col rows 4).map castInt32),
            [("standard_name", .str "wind_from_direction")]⟩,
          ⟨"air_temperature", .floats (col rows 5),
            [("standard_name", .str "air_temperature")]⟩,
          ⟨"air_humidity", .ints ((col rows 6).map castInt32),
            [("standard_name", .str "humidity_mixing_ratio")]⟩,
          ⟨"dew_point", .floats (col rows 7),
            [("standard_name", .str "dew_point_temperature")]⟩,
          ⟨"immediate_air_pressure", .floats (col rows 8),
            [("standard_name", .str "air_pressure")]⟩,
          ⟨"average_air_pressure_for_last_minute", .floats (col rows 9),
            [("standard_name", .str "tendency_of_air_pressure")]⟩,
          ⟨"sea_level_air_pressure", .floats (col rows 10),
            [("standard_name", .str "air_pressure_at_mean_sea_level")]⟩],
        attrs := [] } := by
  simp [addStandardNames, buildDataset, setVarAttr, setAttr]

lemma addUnits_eq (rows : List (List Cell)) :
    addUnits
      { time := col rows 0, time_attrs := [], data_vars := [
          ⟨"latitude", .floats (col rows 1),
            [("standard_name", .str "latitude")]⟩,
          ⟨"longitude", .floats (col rows 2),
            [("standard_name", .str "longitude")]⟩,
          ⟨"true_wind_speed", .floats (col rows 3),
            [("standard_name", .str "wind_speed")]⟩,
          ⟨"true_wind_direction", .ints ((col rows 4).map castInt32),
            [("standard_name", .str "wind_from_direction")]⟩,
          ⟨"air_temperature", .floats (col rows 5),
            [("standard_name", .str "air_temperature")]⟩,
          ⟨"air_humidity", .ints ((col rows 6).map castInt32),
            [("standard_name", .str "humidity_mixing_ratio")]⟩,
          ⟨"dew_point", .floats (col rows 7),
            [("standard_name", .str "dew_point_temperature")]⟩,
          ⟨"immediate_air_pressure", .floats (col rows 8),
            [("standard_name", .str "air_pressure")]⟩,
          ⟨"average_air_pressure_for_last_minute", .floats (col rows 9),
            [("standard_name", .str "tendency_of_air_pressure")]⟩,
          ⟨"sea_level_air_pressure", .floats (col rows 10),
            [("standard_name", .str "air_pressure_at_mean_sea_level")]⟩],
        attrs := [] } =
      { time := col rows 0,
        time_attrs := [("units", .str "seconds since 1970-01-01 00:00:00")],
        data_vars := [
          ⟨"latitude", .floats (col rows 1),
            [("standard_name", .str "latitude"), ("units", .str "degree_north")]⟩,
          ⟨"longitude", .floats (col rows 2),
            [("standard_name", .str "longitude"), ("units", .str "degree_east")]⟩,
          ⟨"true_wind_speed", .floats (col rows 3),
            [("standard_name", .str "wind_speed"), ("units", .str "m s-1")]⟩,
          ⟨"true_wind_direction", .ints ((col rows 4).map castInt32),
            [("standard_name", .str "wind_from_direction"), ("units", .str "degrees")]⟩,
          ⟨"air_temperature", .floats (col rows 5),
            [("standard_name", .str "air_temperature"), ("units", .str "degree_Celsius")]⟩,
          ⟨"air_humidity", .ints ((col rows 6).map castInt32),
            [("standard_name", .str "humidity_mixing_ratio"), ("units", .str "percent")]⟩,
          ⟨"dew_point", .floats (col rows 7),
            [("standard_name", .str "dew_point_temperature"), ("units", .str "degree_Celsius")]⟩,
          ⟨"immediate_air_pressure", .floats (col rows 8),
            [("standard_name", .str "air_pressure"), ("units", .str "hPa")]⟩,
          ⟨"average_air_pressure_for_last_minute", .floats (col rows 9),
            [("standard_name", .str "tendency_of_air_pressure"), ("units", .str "hPa s-1")]⟩,
          ⟨"sea_level_air_pressure", .floats (col rows 10),
            [("standard_name", .str "air_pressure_at_mean_sea_level"), ("units", .str "hPa")]⟩],
        attrs := [] } := by
  simp [addUnits, setVarAttr, setAttr]

lemma addLongNames_eq (rows : List (List Cell)) :
    addLongNames
      { time := col rows 0,
        time_attrs := [("units", .str "seconds since 1970-01-01 00:00:00")],
        data_vars := [
          ⟨"latitude", .floats (col rows 1),
            [("standard_name", .str "latitude"), ("units", .str "degree_north")]⟩,
          ⟨"longitude", .floats (col rows 2),
            [("standard_name", .str "longitude"), ("units", .str "degree_east")]⟩,
          ⟨"true_wind_speed", .floats (col rows 3),
            [("standard_name", .str "wind_speed"), ("units", .str "m s-1")]⟩,
          ⟨"true_wind_direction", .ints ((col rows 4).map castInt32),
            [("standard_name", .str "wind_from_direction"), ("units", .str "degrees")]⟩,
          ⟨"air_temperature", .floats (col rows 5),
            [("standard_name", .str "air_temperature"), ("units", .str "degree_Celsius")]⟩,
          ⟨"air_humidity", .ints ((col rows 6).map castInt32),
            [("standard_name", .str "humidity_mixing_ratio"), ("units", .str "percent")]⟩,
          ⟨"dew_point", .floats (col rows 7),
            [("standard_name", .str "dew_point_temperature"), ("units", .str "degree_Celsius")]⟩,
          ⟨"immediate_air_pressure", .floats (col rows 8),
            [("standard_name", .str "air_pressure"), ("units", .str "hPa")]⟩,
          ⟨"average_air_pressure_for_last_minute", .floats (col rows 9),
            [("standard_name", .str "tendency_of_air_pressure"), ("units", .str "hPa s-1")]⟩,
          ⟨"sea_level_air_pressure", .floats (col rows 10),
            [("standard_name", .str "air_pressure_at_mean_sea_level"), ("units", .str "hPa")]⟩],
        attrs := [] } =
      { time := col rows 0,
        time_attrs := [("units", .str "seconds since 1970-01-01 00:00:00")],
        data_vars := annotatedVars rows,
        attrs := [] } := by
  simp [addLongNames, setAttr, annotatedVars]

lemma addCoverage_annotated (env : Env) (t : List Cell) (tu : AttrList)
    (rows : List (List Cell)) (a : AttrList) :
    addCoverage env
      { time := t, time_attrs := tu, data_vars := annotatedVars rows, attrs := a } =
      { time := t, time_attrs := tu, data_vars := annotatedVars rows,
        attrs :=
          (setAttr (setAttr (setAttr (setAttr (setAttr (setAttr (setAttr a
            "geospatial_lat_min" (.num (nanmin (col rows 1))))
            "geospatial_lat_max" (.num (nanmax (col rows 1))))
            "geospatial_lon_min" (.num (nanmin (col rows 2))))
            "geospatial_lon_max" (.num (nanmax (col rows 2))))
            "time_coverage_start" (.num (nanmin t)))
            "time_coverage_end" (.num (nanmax t)))
            "date_created" (.str env.today)) } := rfl

/-- The fully annotated dataset (before the configured-attribute merge),
evaluated. -/
lemma annotated_eq (env : Env) (f : String) (rows : List (List Cell)) :
    annotated env f rows =
      { time := col rows 0,
        time_attrs := [("units", .str "seconds since 1970-01-01 00:00:00")],
        data_vars := annotatedVars rows,
        attrs := [
          ("title", .str (splitextStem (basename f))),
          ("geospatial_lat_min", .num (nanmin (col rows 1))),
          ("geospatial_lat_max", .num (nanmax (col rows 1))),
          ("geospatial_lon_min", .num (nanmin (col rows 2))),
          ("geospatial_lon_max", .num (nanmax (col rows 2))),
          ("time_coverage_start", .num (nanmin (col rows 0))),
          ("time_coverage_end", .num (nanmax (col rows 0))),
          ("date_created", .str env.today)] } := by
  unfold annotated
  rw [addStandardNames_build, addUnits_eq, addLongNames_eq]
  simp only [addTitle, setDsAttr]
  rw [addCoverage_annotated]
  simp [setAttr]

/-- The finished per-file dataset, evaluated down to the attribute merge and
the final `history` assignment. -/
lemma processFile_eq (env : Env) (ga : AttrList) (f : String) (rows : List (List Cell)) :
    processFile env ga f rows =
      { time := col rows 0,
        time_attrs := [("units", .str "seconds since 1970-01-01 00:00:00")],
        data_vars := annotatedVars rows,
        attrs := setAttr (mergeGlobalAttrs [
          ("title", .str (splitextStem (basename f))),
          ("geospatial_lat_min", .num (nanmin (col rows 1))),
          ("geospatial_lat_max", .num (nanmax (col rows 1))),
          ("geospatial_lon_min", .num (nanmin (col rows 2))),
          ("geospatial_lon_max", .num (nanmax (col rows 2))),
          ("time_coverage_start", .num (nanmin (col rows 0))),
          ("time_coverage_end", .num (nanmax (col rows 0))),
          ("date_created", .str env.today)] ga)
          "history" (.str (historyStr env f (ncName f))) } := by
  unfold processFile annotatedMerged
  rw [annotated_eq]
  rfl

/-- A single-file run with a usable `output_path` hands the writer exactly
one artifact, the `processFile` dataset at the derived path. -/
lemma convert_single (env : Env) (ga : AttrList) (f : String) (rows : List (List Cell))
    (op : String) (ops : List String) :
    convert env ⟨some [(f, rows)], some (op :: ops), some ga⟩ =
      .ok [(op ++ "/" ++ ncName f, processFile env ga f rows)] := rfl

/-! ### Column lemmas -/

lemma col_length (rows : List (List Cell)) (i : Nat) :
    (col rows i).length = rows.length := by
  simp [col]

lemma alignRow_of_len11 {r : List Cell} (h : r.length = 11) : alignRow r = r := by
  simp [alignRow, h]

lemma col_of_len11 {rows : List (List Cell)} (h : ∀ r ∈ rows, r.length = 11)
    (i : Nat) : col rows i = rows.map (fun r => r.getD i none) := by
  unfold col
  exact List.map_congr_left fun r hr => by rw [alignRow_of_len11 (h r hr)]

lemma alignRow_of_len10 {r : List Cell} (h : r.length = 10) :
    alignRow r = r ++ [none] := by
  simp [alignRow, h]

lemma col_ten_of_len10 {rows : List (List Cell)} (h : ∀ r ∈ rows, r.length = 10) :
    col rows 10 = List.replicate rows.length none := by
  have hcell : ∀ r ∈ rows, (alignRow r).getD 10 none = (none : Cell) := by
    intro r hr
    rw [alignRow_of_len10 (h r hr), List.getD_eq_getElem?_getD,
      show (10 : Nat) = r.length from (h r hr).symm, List.getElem?_concat_length]
    rfl
  unfold col
  rw [List.map_congr_left hcell, List.map_const']

/-! ### Lemmas about the int32 cast -/

lemma ratFloor_intFloor (q : ℚ) : Rat.floor q = ⌊q⌋ := by
  rw [Rat.floor_def']
  exact Rat.floor_def.symm

lemma castInt32_inRange (c : Cell) : inInt32 (castInt32 c) := by
  cases c with
  | none =>
      refine ⟨?_, ?_⟩ <;> norm_num [castInt32, int32Min]
  | some q =>
      show inInt32 (if -(2 ^ 31) ≤ truncRat q ∧ truncRat q < 2 ^ 31
        then truncRat q else int32Min)
      split
      · next h => exact h
      · next => refine ⟨?_, ?_⟩ <;> norm_num [int32Min]

/-! ### Claims -/

/-- Claim C1, counterexample: a caller-supplied non-empty `history` entry does
not survive to the final dataset — the provenance string set on source line
108, after the merge of lines 98-100, overwrites it.  So a caller-supplied
non-empty value does not always override the computed attribute of the same
name. -/
theorem C1_counterexample :
    truthy (.str "caller history") = true ∧
    getAttr (processFile ⟨"now", "user", "convert_csv.py", "today"⟩
      [("history", .str "caller history")] "a.csv"
      [[some 1700000000, some 1, some 2, some 3, some 4, some 5,
        some 6, some 7, some 8, some 9, some 10]]).attrs "history"
      ≠ some (.str "caller history") := by
  refine ⟨rfl, ?_⟩
  decide

/-- Claim C1 (amended): for every key other than `history`, a caller-supplied
truthy entry overwrites the computed attribute of that name; keys all of
whose configured values are falsy are left exactly as computed (not written,
not deleted); the `history` attribute always ends up being the computed
provenance string, overriding any caller-supplied value. -/
theorem C1_theorem (env : Env) (ga : AttrList) (f : String) (rows : List (List Cell))
    (k : String) (hnd : (ga.map Prod.fst).Nodup) (hk : k ≠ "history") :
    (∀ v, (k, v) ∈ ga → truthy v = true →
        getAttr (processFile env ga f rows).attrs k = some v) ∧
    ((∀ v, (k, v) ∈ ga → truthy v = false) →
        getAttr (processFile env ga f rows).attrs k
          = getAttr (annotated env f rows).attrs k) ∧
    getAttr (processFile env ga f rows).attrs "history"
      = some (.str (historyStr env f (ncName f))) := by
  rw [processFile_eq, annotated_eq]
  refine ⟨?_, ?_, ?_⟩
  · intro v hmem ht
    rw [getAttr_setAttr_ne _ (Ne.symm hk)]
    exact getAttr_merge_of_mem ga _ k v hnd hmem ht
  · intro hfal
    rw [getAttr_setAttr_ne _ (Ne.symm hk)]
    exact getAttr_merge_of_falsy ga _ k hfal
  · exact getAttr_setAttr_self _ _ _

/-- Claim C1, witness: with configured attributes
`institution = "NPI"` (truthy) and `license = ""` (falsy), the final dataset
carries `institution = "NPI"`, and `license` is exactly whatever the
annotation stages computed. -/
theorem C1_witness :
    getAttr (processFile ⟨"now", "user", "convert_csv.py", "today"⟩
      [("institution", .str "NPI"), ("license", .str "")] "a.csv"
      [[some 1700000000, some 1, some 2, some 3, some 4, some 5,
        some 6, some 7, some 8, some 9, some 10]]).attrs
      "institution" = some (.str "NPI") ∧
    getAttr (processFile ⟨"now", "user", "convert_csv.py", "today"⟩
      [("institution", .str "NPI"), ("license", .str "")] "a.csv"
      [[some 1700000000, some 1, some 2, some 3, some 4, some 5,
        some 6, some 7, some 8, some 9, some 10]]).attrs
      "license"
      = getAttr (annotated ⟨"now", "user", "convert_csv.py", "today"⟩
          "a.csv"
          [[some 1700000000, some 1, some 2, some 3, some 4, some 5,
        some 6, some 7, some 8, some 9, some 10]]).attrs "license" := by
  have h1 := C1_theorem ⟨"now", "user", "convert_csv.py", "today"⟩
    [("institution", .str "NPI"), ("license", .str "")] "a.csv"
    [[some 1700000000, some 1, some 2, some 3, some 4, some 5,
        some 6, some 7, some 8, some 9, some 10]]
    "institution" (by decide) (by decide)
  have h2 := C1_theorem ⟨"now", "user", "convert_csv.py", "today"⟩
    [("institution", .str "NPI"), ("license", .str "")] "a.csv"
    [[some 1700000000, some 1, some 2, some 3, some 4, some 5,
        some 6, some 7, some 8, some 9, some 10]]
    "license" (by decide) (by decide)
  constructor
  · exact h1.1 (.str "NPI") (by decide) rfl
  · refine h2.2.1 ?_
    intro v hv
    rcases List.mem_cons.mp hv with h | h
    · have hfst : "license" = "institution" := congrArg Prod.fst h
      exact absurd hfst (by decide)
    · rcases List.mem_cons.mp h with h2 | h2
      · rw [show v = .str "" from congrArg Prod.snd h2]
        rfl
      · exact absurd h2 (List.not_mem_nil _)

/-- Claim C2, counterexample: a uniform 10-column input file does not make
parsing fail — `pd.read_csv` pads the missing trailing column with NaN — and
an output artifact is produced for it. -/
theorem C2_counterexample :
    (convert ⟨"now", "user", "convert_csv.py", "today"⟩
      ⟨some [("a.csv", [[some 1, some 2, some 3, some 4, some 5, some 6, some 7,
        some 8, some 9, some 10]])], some ["out"], some []⟩).isOk = true ∧
    numOutputs (convert ⟨"now", "user", "convert_csv.py", "today"⟩
      ⟨some [("a.csv", [[some 1, some 2, some 3, some 4, some 5, some 6, some 7,
        some 8, some 9, some 10]])], some ["out"], some []⟩) = 1 := ⟨rfl, rfl⟩

/-- Claim C2 (amended): a uniform 10-column file parses without error: the
first 10 schema names take the 10 columns, the 11th variable
(`sea_level_air_pressure`) is entirely missing, every variable still has one
sample per input row, and the conversion completes and hands the writer one
artifact for the file. -/
theorem C2_theorem (env : Env) (ga : AttrList) (f : String) (rows : List (List Cell))
    (op : String) (h10 : ∀ r ∈ rows, r.length = 10) :
    (processFile env ga f rows).time.length = rows.length ∧
    varColOf (processFile env ga f rows) "sea_level_air_pressure"
      = some (.floats (List.replicate rows.length none)) ∧
    convert env ⟨some [(f, rows)], some [op], some ga⟩
      = .ok [(op ++ "/" ++ ncName f, processFile env ga f rows)] := by
  refine ⟨?_, ?_, convert_single env ga f rows op []⟩
  · rw [processFile_eq]
    exact col_length rows 0
  · rw [processFile_eq]
    show some (VarCol.floats (col rows 10)) = _
    rw [col_ten_of_len10 h10]

/-- Claim C2, witness: a concrete one-row 10-column file. -/
theorem C2_witness :
    (processFile ⟨"now", "user", "convert_csv.py", "today"⟩ [] "b.csv"
      [[some 1, some 2, some 3, some 4, some 5, some 6, some 7, some 8,
        some 9, some 10]]).time.length = 1 ∧
    varColOf (processFile ⟨"now", "user", "convert_csv.py", "today"⟩ [] "b.csv"
      [[some 1, some 2, some 3, some 4, some 5, some 6, some 7, some 8,
        some 9, some 10]]) "sea_level_air_pressure"
      = some (.floats (List.replicate 1 none)) ∧
    convert ⟨"now", "user", "convert_csv.py", "today"⟩
      ⟨some [("b.csv", [[some 1, some 2, some 3, some 4, some 5, some 6, some 7,
        some 8, some 9, some 10]])], some ["out"], some []⟩
      = .ok [("out" ++ "/" ++ ncName "b.csv",
          processFile ⟨"now", "user", "convert_csv.py", "today"⟩ [] "b.csv"
            [[some 1, some 2, some 3, some 4, some 5, some 6, some 7, some 8,
              some 9, some 10]])] :=
  C2_theorem ⟨"now", "user", "convert_csv.py", "today"⟩ [] "b.csv"
    [[some 1, some 2, some 3, some 4, some 5, some 6, some 7, some 8,
      some 9, some 10]] "out" (by decide)

/-- Claim C3, counterexample: a configuration with `input_path`,
`output_path` and `global_attributes` all missing raises nothing — the run
completes successfully with no outputs, so no ConfigurationError is surfaced
immediately (or at all). -/
theorem C3_counterexample :
    convert ⟨"now", "user", "convert_csv.py", "today"⟩ ⟨none, none, none⟩
      = .ok [] := rfl

/-- Claim C3 (amended): the converter defines no ConfigurationError.  A
missing `input_path` defaults to an empty iteration and the run completes
with no output; a missing `global_attributes` defaults to an empty merge and
causes no error; a missing (resp. empty) `output_path` surfaces as a Python
KeyError (resp. IndexError) raised separately for the file being processed,
only after that file has been parsed and its dataset built and annotated. -/
theorem C3_theorem (env : Env) (ops : Option (List String)) (g : Option AttrList)
    (f : String) (rows : List (List Cell)) (op : String) :
    convert env ⟨none, ops, g⟩ = .ok [] ∧
    convert env ⟨some [(f, rows)], none, g⟩ = .error .keyError ∧
    convert env ⟨some [(f, rows)], some [], g⟩ = .error .indexError ∧
    (convert env ⟨some [(f, rows)], some [op], none⟩).isOk = true :=
  ⟨rfl, rfl, rfl, rfl⟩

/-- Claim C4: for an 11-column input of n rows, the time coordinate is
exactly the timestamp column in source order (duplicates and order
preserved), there are exactly 10 data variables with the schema's names, and
every data variable has exactly n samples, as does the time coordinate. -/
theorem C4_theorem (env : Env) (ga : AttrList) (f : String)
    (rows : List (List Cell)) (h11 : ∀ r ∈ rows, r.length = 11) :
    (processFile env ga f rows).time = rows.map (fun r => r.getD 0 none) ∧
    (processFile env ga f rows).time.length = rows.length ∧
    (processFile env ga f rows).data_vars.length = 10 ∧
    (processFile env ga f rows).data_vars.map Variable.name
      = ["latitude", "longitude", "true_wind_speed", "true_wind_direction",
         "air_temperature", "air_humidity", "dew_point", "immediate_air_pressure",
         "average_air_pressure_for_last_minute", "sea_level_air_pressure"] ∧
    (∀ v ∈ (processFile env ga f rows).data_vars, v.col.length = rows.length) := by
  rw [processFile_eq]
  refine ⟨?_, ?_, ?_, ?_, ?_⟩
  · show col rows 0 = _
    exact col_of_len11 h11 0
  · exact col_length rows 0
  · rfl
  · rfl
  · intro v hv
    simp only [annotatedVars, List.mem_cons, List.not_mem_nil, or_false] at hv
    rcases hv with rfl | rfl | rfl | rfl | rfl | rfl | rfl | rfl | rfl | rfl <;>
      simp [VarCol.length, col_length]

/-- Claim C4, witness: a two-row file with a duplicated timestamp keeps both
rows, in order. -/
theorem C4_witness :
    (processFile ⟨"now", "user", "convert_csv.py", "today"⟩ [] "a.csv"
      [[some 5, some 1, some 2, some 3, some 4, some 6, some 7, some 8,
        some 9, some 10, some 11],
       [some 5, some 1, some 2, some 3, some 4, some 6, some 7, some 8,
        some 9, some 10, some 11]]).time
      = ([[some 5, some 1, some 2, some 3, some 4, some 6, some 7, some 8,
            some 9, some 10, some 11],
          [some 5, some 1, some 2, some 3, some 4, some 6, some 7, some 8,
            some 9, some 10, some 11]] : List (List Cell)).map
          (fun r => r.getD 0 none) ∧
    (processFile ⟨"now", "user", "convert_csv.py", "today"⟩ [] "a.csv"
      [[some 5, some 1, some 2, some 3, some 4, some 6, some 7, some 8,
        some 9, some 10, some 11],
       [some 5, some 1, some 2, some 3, some 4, some 6, some 7, some 8,
        some 9, some 10, some 11]]).time.length = 2 ∧
    (processFile ⟨"now", "user", "convert_csv.py", "today"⟩ [] "a.csv"
      [[some 5, some 1, some 2, some 3, some 4, some 6, some 7, some 8,
        some 9, some 10, some 11],
       [some 5, some 1, some 2, some 3, some 4, some 6, some 7, some 8,
        some 9, some 10, some 11]]).data_vars.length = 10 ∧
    (processFile ⟨"now", "user", "convert_csv.py", "today"⟩ [] "a.csv"
      [[some 5, some 1, some 2, some 3, some 4, some 6, some 7, some 8,
        some 9, some 10, some 11],
       [some 5, some 1, some 2, some 3, some 4, some 6, some 7, some 8,
        some 9, some 10, some 11]]).data_vars.map Variable.name
      = ["latitude", "longitude", "true_wind_speed", "true_wind_direction",
         "air_temperature", "air_humidity", "dew_point", "immediate_air_pressure",
         "average_air_pressure_for_last_minute", "sea_level_air_pressure"] ∧
    (∀ v ∈ (processFile ⟨"now", "user", "convert_csv.py", "today"⟩ [] "a.csv"
      [[some 5, some 1, some 2, some 3, some 4, some 6, some 7, some 8,
        some 9, some 10, some 11],
       [some 5, some 1, some 2, some 3, some 4, some 6, some 7, some 8,
        some 9, some 10, some 11]]).data_vars, v.col.length = 2) :=
  C4_theorem ⟨"now", "user", "convert_csv.py", "today"⟩ [] "a.csv"
    [[some 5, some 1, some 2, some 3, some 4, some 6, some 7, some 8,
      some 9, some 10, some 11],
     [some 5, some 1, some 2, some 3, some 4, some 6, some 7, some 8,
      some 9, some 10, some 11]] (by decide)

/-- Claim C5: the six extent attributes of the finished dataset (with no
configured attribute shadowing them) are the NaN-ignoring minima/maxima of
the latitude variable, the longitude variable and the time coordinate, and
whenever at least one non-missing latitude (resp. time) sample exists,
geospatial_lat_min ≤ geospatial_lat_max (resp. time_coverage_start ≤
time_coverage_end). -/
theorem C5_theorem (env : Env) (ga : AttrList) (f : String)
    (rows : List (List Cell))
    (hga : ∀ kv ∈ ga, kv.1 ∉ (["geospatial_lat_min", "geospatial_lat_max",
      "geospatial_lon_min", "geospatial_lon_max", "time_coverage_start",
      "time_coverage_end"] : List String)) :
    (getAttr (processFile env ga f rows).attrs "geospatial_lat_min"
        = some (.num (nanmin (col rows 1))) ∧
      getAttr (processFile env ga f rows).attrs "geospatial_lat_max"
        = some (.num (nanmax (col rows 1))) ∧
      getAttr (processFile env ga f rows).attrs "geospatial_lon_min"
        = some (.num (nanmin (col rows 2))) ∧
      getAttr (processFile env ga f rows).attrs "geospatial_lon_max"
        = some (.num (nanmax (col rows 2))) ∧
      getAttr (processFile env ga f rows).attrs "time_coverage_start"
        = some (.num (nanmin (col rows 0))) ∧
      getAttr (processFile env ga f rows).attrs "time_coverage_end"
        = some (.num (nanmax (col rows 0)))) ∧
    ((col rows 1).filterMap id ≠ [] → ∃ lo hi,
      getAttr (processFile env ga f rows).attrs "geospatial_lat_min"
          = some (.num (some lo)) ∧
        getAttr (processFile env ga f rows).attrs "geospatial_lat_max"
          = some (.num (some hi)) ∧ lo ≤ hi) ∧
    ((col rows 0).filterMap id ≠ [] → ∃ lo hi,
      getAttr (processFile env ga f rows).attrs "time_coverage_start"
          = some (.num (some lo)) ∧
        getAttr (processFile env ga f rows).attrs "time_coverage_end"
          = some (.num (some hi)) ∧ lo ≤ hi) := by
  have hfal : ∀ k : String, k ∈ (["geospatial_lat_min", "geospatial_lat_max",
      "geospatial_lon_min", "geospatial_lon_max", "time_coverage_start",
      "time_coverage_end"] : List String) → ∀ v, (k, v) ∈ ga → truthy v = false :=
    fun k hk v hv => ((hga (k, v) hv) hk).elim
  have step : ∀ k : String, "history" ≠ k →
      (∀ v, (k, v) ∈ ga → truthy v = false) →
      getAttr (processFile env ga f rows).attrs k
        = getAttr (annotated env f rows).attrs k := by
    intro k h1 h2
    rw [processFile_eq, annotated_eq, getAttr_setAttr_ne _ h1,
      getAttr_merge_of_falsy _ _ _ h2]
  have e1 : getAttr (processFile env ga f rows).attrs "geospatial_lat_min"
      = some (.num (nanmin (col rows 1))) := by
    rw [step _ (by decide) (hfal _ (by decide)), annotated_eq]
    rfl
  have e2 : getAttr (processFile env ga f rows).attrs "geospatial_lat_max"
      = some (.num (nanmax (col rows 1))) := by
    rw [step _ (by decide) (hfal _ (by decide)), annotated_eq]
    rfl
  have e3 : getAttr (processFile env ga f rows).attrs "geospatial_lon_min"
      = some (.num (nanmin (col rows 2))) := by
    rw [step _ (by decide) (hfal _ (by decide)), annotated_eq]
    rfl
  have e4 : getAttr (processFile env ga f rows).attrs "geospatial_lon_max"
      = some (.num (nanmax (col rows 2))) := by
    rw [step _ (by decide) (hfal _ (by decide)), annotated_eq]
    rfl
  have e5 : getAttr (processFile env ga f rows).attrs "time_coverage_start"
      = some (.num (nanmin (col rows 0))) := by
    rw [step _ (by decide) (hfal _ (by decide)), annotated_eq]
    rfl
  have e6 : getAttr (processFile env ga f rows).attrs "time_coverage_end"
      = some (.num (nanmax (col rows 0))) := by
    rw [step _ (by decide) (hfal _ (by decide)), annotated_eq]
    rfl
  refine ⟨⟨e1, e2, e3, e4, e5, e6⟩, ?_, ?_⟩
  · intro hne
    obtain ⟨lo, hi, hmin, hmax, hle⟩ := nanmin_le_nanmax hne
    exact ⟨lo, hi, by rw [e1, hmin], by rw [e2, hmax], hle⟩
  · intro hne
    obtain ⟨lo, hi, hmin, hmax, hle⟩ := nanmin_le_nanmax hne
    exact ⟨lo, hi, by rw [e5, hmin], by rw [e6, hmax], hle⟩

/-- Claim C5, witness: a concrete one-row file with a valid latitude and
timestamp has ordered latitude and time extents. -/
theorem C5_witness :
    (∃ lo hi,
      getAttr (processFile ⟨"now", "user", "convert_csv.py", "today"⟩ [] "a.csv"
        [[some 1700000000, some (mkRat 69 2), some (mkRat (-601) 5),
          some (mkRat 51 10), some 180, some (mkRat 91 5), some 60, some 12,
          some (mkRat 5066 5), some (mkRat 1 10), some 1014]]).attrs
        "geospatial_lat_min" = some (.num (some lo)) ∧
      getAttr (processFile ⟨"now", "user", "convert_csv.py", "today"⟩ [] "a.csv"
        [[some 1700000000, some (mkRat 69 2), some (mkRat (-601) 5),
          some (mkRat 51 10), some 180, some (mkRat 91 5), some 60, some 12,
          some (mkRat 5066 5), some (mkRat 1 10), some 1014]]).attrs
        "geospatial_lat_max" = some (.num (some hi)) ∧ lo ≤ hi) ∧
    (∃ lo hi,
      getAttr (processFile ⟨"now", "user", "convert_csv.py", "today"⟩ [] "a.csv"
        [[some 1700000000, some (mkRat 69 2), some (mkRat (-601) 5),
          some (mkRat 51 10), some 180, some (mkRat 91 5), some 60, some 12,
          some (mkRat 5066 5), some (mkRat 1 10), some 1014]]).attrs
        "time_coverage_start" = some (.num (some lo)) ∧
      getAttr (processFile ⟨"now", "user", "convert_csv.py", "today"⟩ [] "a.csv"
        [[some 1700000000, some (mkRat 69 2), some (mkRat (-601) 5),
          some (mkRat 51 10), some 180, some (mkRat 91 5), some 60, some 12,
          some (mkRat 5066 5), some (mkRat 1 10), some 1014]]).attrs
        "time_coverage_end" = some (.num (some hi)) ∧ lo ≤ hi) := by
  have h := C5_theorem ⟨"now", "user", "convert_csv.py", "today"⟩ [] "a.csv"
    [[some 1700000000, some (mkRat 69 2), some (mkRat (-601) 5),
      some (mkRat 51 10), some 180, some (mkRat 91 5), some 60, some 12,
      some (mkRat 5066 5), some (mkRat 1 10), some 1014]]
    (fun kv hv => absurd hv (List.not_mem_nil kv))
  exact ⟨h.2.1 (by decide), h.2.2 (by decide)⟩

/-- Claim C6: when every latitude and longitude cell is missing, the extent
computation still succeeds (the model is a total function — `np.nanmin`
only warns on an all-NaN input) and the four geospatial extent attributes
are present with the undefined/NaN value. -/
theorem C6_theorem (env : Env) (f : String) (rows : List (List Cell))
    (hlat : ∀ c ∈ col rows 1, c = none) (hlon : ∀ c ∈ col rows 2, c = none) :
    getAttr (annotated env f rows).attrs "geospatial_lat_min"
      = some (.num none) ∧
    getAttr (annotated env f rows).attrs "geospatial_lat_max"
      = some (.num none) ∧
    getAttr (annotated env f rows).attrs "geospatial_lon_min"
      = some (.num none) ∧
    getAttr (annotated env f rows).attrs "geospatial_lon_max"
      = some (.num none) := by
  refine ⟨?_, ?_, ?_, ?_⟩
  · rw [annotated_eq]
    show some (AttrValue.num (nanmin (col rows 1))) = _
    rw [nanmin_all_none hlat]
  · rw [annotated_eq]
    show some (AttrValue.num (nanmax (col rows 1))) = _
    rw [nanmax_all_none hlat]
  · rw [annotated_eq]
    show some (AttrValue.num (nanmin (col rows 2))) = _
    rw [nanmin_all_none hlon]
  · rw [annotated_eq]
    show some (AttrValue.num (nanmax (col rows 2))) = _
    rw [nanmax_all_none hlon]

/-- Claim C6, witness: a one-row file whose latitude and longitude cells are
both missing. -/
theorem C6_witness :
    getAttr (annotated ⟨"now", "user", "convert_csv.py", "today"⟩ "a.csv"
      [[some 1700000000, none, none, some 1, some 2, some 3, some 4, some 5,
        some 6, some 7, some 8]]).attrs "geospatial_lat_min"
      = some (.num none) ∧
    getAttr (annotated ⟨"now", "user", "convert_csv.py", "today"⟩ "a.csv"
      [[some 1700000000, none, none, some 1, some 2, some 3, some 4, some 5,
        some 6, some 7, some 8]]).attrs "geospatial_lat_max"
      = some (.num none) ∧
    getAttr (annotated ⟨"now", "user", "convert_csv.py", "today"⟩ "a.csv"
      [[some 1700000000, none, none, some 1, some 2, some 3, some 4, some 5,
        some 6, some 7, some 8]]).attrs "geospatial_lon_min"
      = some (.num none) ∧
    getAttr (annotated ⟨"now", "user", "convert_csv.py", "today"⟩ "a.csv"
      [[some 1700000000, none, none, some 1, some 2, some 3, some 4, some 5,
        some 6, some 7, some 8]]).attrs "geospatial_lon_max"
      = some (.num none) :=
  C6_theorem ⟨"now", "user", "convert_csv.py", "today"⟩ "a.csv"
    [[some 1700000000, none, none, some 1, some 2, some 3, some 4, some 5,
      some 6, some 7, some 8]] (by decide) (by decide)

/-- Claim C7: after annotation, each of the 10 data variables and the time
coordinate carries exactly the units of the fixed table of source lines
67-77. -/
theorem C7_theorem (env : Env) (ga : AttrList) (f : String)
    (rows : List (List Cell)) :
    varAttr (processFile env ga f rows) "latitude" "units"
      = some (.str "degree_north") ∧
    varAttr (processFile env ga f rows) "longitude" "units"
      = some (.str "degree_east") ∧
    varAttr (processFile env ga f rows) "true_wind_speed" "units"
      = some (.str "m s-1") ∧
    varAttr (processFile env ga f rows) "true_wind_direction" "units"
      = some (.str "degrees") ∧
    varAttr (processFile env ga f rows) "air_temperature" "units"
      = some (.str "degree_Celsius") ∧
    varAttr (processFile env ga f rows) "air_humidity" "units"
      = some (.str "percent") ∧
    varAttr (processFile env ga f rows) "dew_point" "units"
      = some (.str "degree_Celsius") ∧
    varAttr (processFile env ga f rows) "immediate_air_pressure" "units"
      = some (.str "hPa") ∧
    varAttr (processFile env ga f rows) "average_air_pressure_for_last_minute" "units"
      = some (.str "hPa s-1") ∧
    varAttr (processFile env ga f rows) "sea_level_air_pressure" "units"
      = some (.str "hPa") ∧
    varAttr (processFile env ga f rows) "time" "units"
      = some (.str "seconds since 1970-01-01 00:00:00") := by
  rw [processFile_eq]
  exact ⟨rfl, rfl, rfl, rfl, rfl, rfl, rfl, rfl, rfl, rfl, rfl⟩

/-- Claim C8: after annotation, each of the 10 data variables carries the
standard name of the fixed table of source lines 55-64 and a long name equal
to its own variable name (source lines 80-82). -/
theorem C8_theorem (env : Env) (ga : AttrList) (f : String)
    (rows : List (List Cell)) :
    (varAttr (processFile env ga f rows) "latitude" "standard_name"
        = some (.str "latitude") ∧
      varAttr (processFile env ga f rows) "longitude" "standard_name"
        = some (.str "longitude") ∧
      varAttr (processFile env ga f rows) "true_wind_speed" "standard_name"
        = some (.str "wind_speed") ∧
      varAttr (processFile env ga f rows) "true_wind_direction" "standard_name"
        = some (.str "wind_from_direction") ∧
      varAttr (processFile env ga f rows) "air_temperature" "standard_name"
        = some (.str "air_temperature") ∧
      varAttr (processFile env ga f rows) "air_humidity" "standard_name"
        = some (.str "humidity_mixing_ratio") ∧
      varAttr (processFile env ga f rows) "dew_point" "standard_name"
        = some (.str "dew_point_temperature") ∧
      varAttr (processFile env ga f rows) "immediate_air_pressure" "standard_name"
        = some (.str "air_pressure") ∧
      varAttr (processFile env ga f rows) "average_air_pressure_for_last_minute"
        "standard_name" = some (.str "tendency_of_air_pressure") ∧
      varAttr (processFile env ga f rows) "sea_level_air_pressure" "standard_name"
        = some (.str "air_pressure_at_mean_sea_level")) ∧
    (varAttr (processFile env ga f rows) "latitude" "long_name"
        = some (.str "latitude") ∧
      varAttr (processFile env ga f rows) "longitude" "long_name"
        = some (.str "longitude") ∧
      varAttr (processFile env ga f rows) "true_wind_speed" "long_name"
        = some (.str "true_wind_speed") ∧
      varAttr (processFile env ga f rows) "true_wind_direction" "long_name"
        = some (.str "true_wind_direction") ∧
      varAttr (processFile env ga f rows) "air_temperature" "long_name"
        = some (.str "air_temperature") ∧
      varAttr (processFile env ga f rows) "air_humidity" "long_name"
        = some (.str "air_humidity") ∧
      varAttr (processFile env ga f rows) "dew_point" "long_name"
        = some (.str "dew_point") ∧
      varAttr (processFile env ga f rows) "immediate_air_pressure" "long_name"
        = some (.str "immediate_air_pressure") ∧
      varAttr (processFile env ga f rows) "average_air_pressure_for_last_minute"
        "long_name" = some (.str "average_air_pressure_for_last_minute") ∧
      varAttr (processFile env ga f rows) "sea_level_air_pressure" "long_name"
        = some (.str "sea_level_air_pressure")) := by
  rw [processFile_eq]
  exact ⟨⟨rfl, rfl, rfl, rfl, rfl, rfl, rfl, rfl, rfl, rfl⟩,
    ⟨rfl, rfl, rfl, rfl, rfl, rfl, rfl, rfl, rfl, rfl⟩⟩

/-- Claim C9: under the mixed typing policy of source lines 44 and 46,
`true_wind_direction` and `air_humidity` are stored as int32 columns (each
entry is the int32 cast of the parsed cell, and lands in the int32 range)
while the remaining 8 data variables stay float columns; on the sample row
`1700000000,34.5,-120.2,5.1,180,18.2,60,12.0,1013.2,0.1,1014.0` the stored
values are the integers 180 and 60. -/
theorem C9_theorem (env : Env) (ga : AttrList) (f : String)
    (rows : List (List Cell)) :
    varColOf (processFile env ga f rows) "true_wind_direction"
      = some (.ints ((col rows 4).map castInt32)) ∧
    varColOf (processFile env ga f rows) "air_humidity"
      = some (.ints ((col rows 6).map castInt32)) ∧
    varColOf (processFile env ga f rows) "latitude"
      = some (.floats (col rows 1)) ∧
    varColOf (processFile env ga f rows) "longitude"
      = some (.floats (col rows 2)) ∧
    varColOf (processFile env ga f rows) "true_wind_speed"
      = some (.floats (col rows 3)) ∧
    varColOf (processFile env ga f rows) "air_temperature"
      = some (.floats (col rows 5)) ∧
    varColOf (processFile env ga f rows) "dew_point"
      = some (.floats (col rows 7)) ∧
    varColOf (processFile env ga f rows) "immediate_air_pressure"
      = some (.floats (col rows 8)) ∧
    varColOf (processFile env ga f rows) "average_air_pressure_for_last_minute"
      = some (.floats (col rows 9)) ∧
    varColOf (processFile env ga f rows) "sea_level_air_pressure"
      = some (.floats (col rows 10)) ∧
    (∀ c : Cell, inInt32 (castInt32 c)) ∧
    varColOf (processFile env ga f
      [[some 1700000000, some (mkRat 69 2), some (mkRat (-601) 5),
        some (mkRat 51 10), some 180, some (mkRat 91 5), some 60, some 12,
        some (mkRat 5066 5), some (mkRat 1 10), some 1014]])
      "true_wind_direction" = some (.ints [180]) ∧
    varColOf (processFile env ga f
      [[some 1700000000, some (mkRat 69 2), some (mkRat (-601) 5),
        some (mkRat 51 10), some 180, some (mkRat 91 5), some 60, some 12,
        some (mkRat 5066 5), some (mkRat 1 10), some 1014]])
      "air_humidity" = some (.ints [60]) := by
  have htwd : ∀ rs : List (List Cell),
      varColOf (processFile env ga f rs) "true_wind_direction"
        = some (.ints ((col rs 4).map castInt32)) := by
    intro rs
    rw [processFile_eq]
    rfl
  have hhum : ∀ rs : List (List Cell),
      varColOf (processFile env ga f rs) "air_humidity"
        = some (.ints ((col rs 6).map castInt32)) := by
    intro rs
    rw [processFile_eq]
    rfl
  refine ⟨htwd rows, hhum rows, ?_, ?_, ?_, ?_, ?_, ?_, ?_, ?_,
    castInt32_inRange, ?_, ?_⟩
  · rw [processFile_eq]
    rfl
  · rw [processFile_eq]
    rfl
  · rw [processFile_eq]
    rfl
  · rw [processFile_eq]
    rfl
  · rw [processFile_eq]
    rfl
  · rw [processFile_eq]
    rfl
  · rw [processFile_eq]
    rfl
  · rw [processFile_eq]
    rfl
  · rw [htwd [[some 1700000000, some (mkRat 69 2), some (mkRat (-601) 5),
      some (mkRat 51 10), some 180, some (mkRat 91 5), some 60, some 12,
      some (mkRat 5066 5), some (mkRat 1 10), some 1014]]]
    have hv : (col [[some 1700000000, some (mkRat 69 2), some (mkRat (-601) 5),
        some (mkRat 51 10), some 180, some (mkRat 91 5), some 60, some 12,
        some (mkRat 5066 5), some (mkRat 1 10), some 1014]] 4).map castInt32
        = [180] := by decide
    rw [hv]
  · rw [hhum [[some 1700000000, some (mkRat 69 2), some (mkRat (-601) 5),
      some (mkRat 51 10), some 180, some (mkRat 91 5), some 60, some 12,
      some (mkRat 5066 5), some (mkRat 1 10), some 1014]]]
    have hv : (col [[some 1700000000, some (mkRat 69 2), some (mkRat (-601) 5),
        some (mkRat 51 10), some 180, some (mkRat 91 5), some 60, some 12,
        some (mkRat 5066 5), some (mkRat 1 10), some 1014]] 6).map castInt32
        = [60] := by decide
    rw [hv]

/-- Claim C10: the int32 cast truncates a fractional value toward zero
(for non-negative values it is the floor, for non-positive values the
negated floor of the negation; 180.7 = 1807/10 is stored as 180), and a
missing (NaN) cell does not stay missing: it is cast to INT32_MIN, an
ordinary in-range int32, indistinguishable from data downstream. -/
theorem C10_theorem (env : Env) (ga : AttrList) (f : String)
    (rows : List (List Cell)) :
    varColOf (processFile env ga f rows) "true_wind_direction"
      = some (.ints ((col rows 4).map castInt32)) ∧
    castInt32 (some (mkRat 1807 10)) = 180 ∧
    castInt32 (some (mkRat (-1807) 10)) = -180 ∧
    (∀ q : ℚ, 0 ≤ q → inInt32 (Rat.floor q) →
      castInt32 (some q) = Rat.floor q) ∧
    (∀ q : ℚ, q ≤ 0 → inInt32 (-(Rat.floor (-q))) →
      castInt32 (some q) = -(Rat.floor (-q))) ∧
    castInt32 none = int32Min ∧
    inInt32 (castInt32 none) := by
  refine ⟨?_, by decide, by decide, ?_, ?_, rfl, castInt32_inRange none⟩
  · rw [processFile_eq]
    rfl
  · intro q h0 hin
    have ht : truncRat q = Rat.floor q := by
      unfold truncRat
      rw [if_neg (not_lt.mpr h0)]
    show (if -(2 ^ 31) ≤ truncRat q ∧ truncRat q < 2 ^ 31
      then truncRat q else int32Min) = Rat.floor q
    rw [ht, if_pos hin]
  · intro q h0 hin
    rcases lt_or_eq_of_le h0 with hlt | heq
    · have ht : truncRat q = -(Rat.floor (-q)) := by
        unfold truncRat
        rw [if_pos hlt]
      show (if -(2 ^ 31) ≤ truncRat q ∧ truncRat q < 2 ^ 31
        then truncRat q else int32Min) = -(Rat.floor (-q))
      rw [ht, if_pos hin]
    · subst heq
      have h1 : truncRat (0 : ℚ) = 0 := by
        unfold truncRat
        rw [if_neg (lt_irrefl (0 : ℚ)), ratFloor_intFloor]
        exact Int.floor_zero
      show (if -(2 ^ 31) ≤ truncRat (0 : ℚ) ∧ truncRat (0 : ℚ) < 2 ^ 31
        then truncRat (0 : ℚ) else int32Min) = -(Rat.floor (-(0 : ℚ)))
      rw [h1, if_pos (by norm_num : -(2 : Int) ^ 31 ≤ 0 ∧ (0 : Int) < 2 ^ 31),
        neg_zero, ratFloor_intFloor, Int.floor_zero, neg_zero]

/-- Claim C10, witness: the cast agrees with floor-based truncation toward
zero at 3.5 and -3.5. -/
theorem C10_witness :
    castInt32 (some (mkRat 7 2)) = Rat.floor (mkRat 7 2) ∧
    castInt32 (some (mkRat (-7) 2)) = -(Rat.floor (-(mkRat (-7) 2))) := by
  have h := C10_theorem ⟨"now", "user", "convert_csv.py", "today"⟩ [] "a.csv" []
  exact ⟨h.2.2.2.1 (mkRat 7 2) (by decide) (by decide),
    h.2.2.2.2.1 (mkRat (-7) 2) (by decide) (by decide)⟩

end ConvertCsv
